import Mathlib

/-!
Shallow embedding of the firestick-minder daemon (src/firestick_minder.py and
src/config.py): the per-device idle state machine and the configuration
resolution logic, together with theorems checking the specification.

Conventions of the embedding:
* Python floats are modelled as rationals; the idle accumulator only ever
  adds and compares, so no rounding behaviour matters for these claims.
* os.environ is modelled as an association list (key, value), looked up by
  first match and iterated in list order (Python dicts iterate in insertion
  order and have unique keys).
* A Python dict field that may be absent is an Option; a key explicitly set
  to None is identified with an absent key except where the source
  distinguishes them (idle_timeout_seconds uses Option (Option Int)).
* Python int(s) is modelled on decimal literals with an optional sign and
  surrounding whitespace (String.toInt? after trim).
* Exceptions (ConfigError) are modelled with Except; in-place mutation of
  IdleState is modelled by value passing.
-/

/-- IdleState (firestick_minder.py lines 255-257): one idle-seconds
accumulator per device. -/
structure IdleState where
  idle_seconds : ℚ
deriving DecidableEq

/-- update_idle_state (firestick_minder.py lines 260-289): advance the
per-device idle FSM and decide whether to launch the idle app. Returns
(new state, should_launch, idle_eligible). -/
def update_idle_state (state : IdleState) (home_screen in_target_app media_playing : Bool)
    (poll_interval : ℚ) (timeout : Option ℚ) : IdleState × Bool × Bool :=
  let idle_eligible := home_screen && !media_playing && !in_target_app
  let s1 : ℚ := if idle_eligible then state.idle_seconds + poll_interval else 0
  let effective_timeout : ℚ := match timeout with | none => 0 | some t => t
  let should_launch := idle_eligible && decide (effective_timeout ≤ s1) && !in_target_app
  let s2 : ℚ := if should_launch then 0 else s1
  (⟨s2⟩, should_launch, idle_eligible)

/-- One tick's inputs to the idle FSM, as passed by main_loop. -/
structure IdleInput where
  home_screen : Bool
  in_target_app : Bool
  media_playing : Bool
  poll_interval : ℚ
  timeout : Option ℚ
deriving DecidableEq

/-- The outputs of a sequence of update_idle_state calls, threading the
returned state into the next call (as main_loop does tick after tick). -/
def run_idle_trace (s : IdleState) : List IdleInput → List (IdleState × Bool × Bool)
  | [] => []
  | i :: rest =>
    let r := update_idle_state s i.home_screen i.in_target_app i.media_playing
      i.poll_interval i.timeout
    r :: run_idle_trace r.1 rest

/-- comp.split("/")[0] (firestick_minder.py line 453): the package portion of
the idle-target component. -/
def slideshow_pkg_of (comp : String) : String :=
  ⟨comp.data.takeWhile (fun c => c != '/')⟩

/-- home_screen derivation (firestick_minder.py line 456): the foreground
package is in the device's home-package set; None is never a member. -/
def derive_home_screen (foreground_pkg : Option String) (home_packages : List String) : Bool :=
  match foreground_pkg with
  | some p => home_packages.contains p
  | none => false

/-- in_target_app derivation (firestick_minder.py line 457): the foreground
package equals the target's package portion; None never equals a string. -/
def derive_in_target_app (foreground_pkg : Option String) (comp : String) : Bool :=
  match foreground_pkg with
  | some p => p == slideshow_pkg_of comp
  | none => false

/-- ConfigError (config.py lines 15-16), carrying the message text. -/
structure ConfigError where
  msg : String
deriving DecidableEq

deriving instance DecidableEq for Except

/-- The process environment, as an association list in iteration order. -/
abbrev Env := List (String × String)

/-- os.getenv / os.environ.get: first binding of the key, if any. -/
def getenv (e : Env) (k : String) : Option String :=
  (e.find? (fun p => p.1 == k)).map (fun p => p.2)

/-- _DEF_HOME_PACKAGES (config.py line 19); a Python set, modelled as a list
since only membership is ever used. -/
def DEF_HOME_PACKAGES : List String :=
  ["com.amazon.tv.launcher", "com.amazon.firetv.launcher"]

/-!
Character-list primitives. The embedding performs all string processing by
structural recursion on the character list of a string, mirroring the
Python string operations used by the source (strip, lower, upper, split,
startswith/endswith, int()). -/

/-- Python str.strip() on a character list (ASCII whitespace). -/
def py_strip_chars (cs : List Char) : List Char :=
  ((cs.dropWhile Char.isWhitespace).reverse.dropWhile Char.isWhitespace).reverse

/-- Python str.strip() on a string. -/
def py_strip (s : String) : String :=
  ⟨py_strip_chars s.data⟩

/-- Python str.lower() on a character list. -/
def chars_lower (cs : List Char) : List Char :=
  cs.map Char.toLower

/-- Python str.upper() on a character list. -/
def chars_upper (cs : List Char) : List Char :=
  cs.map Char.toUpper

/-- Does the second list start with the first? -/
def starts_with_chars : List Char → List Char → Bool
  | [], _ => true
  | _ :: _, [] => false
  | p :: ps, c :: cs => p == c && starts_with_chars ps cs

/-- Does the second list end with the first? -/
def ends_with_chars (suf cs : List Char) : Bool :=
  starts_with_chars suf.reverse cs.reverse

/-- Decimal digits to a natural number. -/
def digits_to_nat : List Char → Nat → Nat
  | [], acc => acc
  | c :: cs, acc => digits_to_nat cs (acc * 10 + (c.toNat - '0'.toNat))

/-- Python int(str) on decimal literals: optional surrounding whitespace,
optional sign, at least one digit. -/
def py_int_chars? (cs : List Char) : Option Int :=
  match py_strip_chars cs with
  | [] => none
  | '+' :: ds =>
    if ds ≠ [] ∧ ds.all Char.isDigit then some (Int.ofNat (digits_to_nat ds 0)) else none
  | '-' :: ds =>
    if ds ≠ [] ∧ ds.all Char.isDigit then some (-(Int.ofNat (digits_to_nat ds 0))) else none
  | ds =>
    if ds.all Char.isDigit then some (Int.ofNat (digits_to_nat ds 0)) else none

/-- Python str.split(sep) for a one-character separator (total split). -/
def split_on_char (sep : Char) : List Char → List (List Char)
  | [] => [[]]
  | c :: cs =>
    match split_on_char sep cs with
    | [] => [[]]
    | g :: gs => if c == sep then [] :: g :: gs else (c :: g) :: gs

/-- Python str.split(sep, 1) for a one-character separator: the parts before
and after the first occurrence, or none when the separator is absent. -/
def split_once_char (sep : Char) : List Char → Option (List Char × List Char)
  | [] => none
  | c :: cs =>
    if c == sep then some ([], cs)
    else
      match split_once_char sep cs with
      | none => none
      | some (a, b) => some (c :: a, b)

/-- Python string < (lexicographic by code point). -/
def chars_lt : List Char → List Char → Bool
  | [], [] => false
  | [], _ :: _ => true
  | _ :: _, [] => false
  | a :: as, b :: bs => if a < b then true else if b < a then false else chars_lt as bs

/-- _parse_bool_env (config.py lines 22-32). Returns none when the variable
is unset, raises ConfigError on an unrecognized value. -/
def parse_bool_env : Option String → Except ConfigError (Option Bool)
  | none => .ok none
  | some v =>
    let vl := chars_lower (py_strip_chars v.data)
    if vl == "1".data || vl == "true".data || vl == "yes".data || vl == "on".data then
      .ok (some true)
    else if vl == "0".data || vl == "false".data || vl == "no".data || vl == "off".data then
      .ok (some false)
    else .error ⟨"Boolean env vars must be one of: 1, 0, true, false, yes, no, on, off"⟩

/-- _parse_int_env (config.py lines 35-44). Returns none when the variable
is unset; raises ConfigError on a non-integer or non-positive value. -/
def parse_int_env : Option String → String → Except ConfigError (Option Int)
  | none, _ => .ok none
  | some v, var_name =>
    match py_int_chars? v.data with
    | none => .error ⟨var_name ++ " must be an integer"⟩
    | some n =>
      if n ≤ 0 then .error ⟨var_name ++ " must be a positive integer"⟩
      else .ok (some n)

/-- A raw (pre-normalization) device mapping, as assembled from YAML or from
the environment builders; an Option field none means an absent key. -/
structure RawDevice where
  name : Option String := none
  host : Option String := none
  home_packages : Option (List String) := none
  slideshow_component : Option String := none
  app : Option String := none
  adb_port : Option Int := none
deriving DecidableEq

/-- A normalized device (the mapping returned by _normalize_device,
config.py lines 73-79); home_packages is a Python set, modelled as a list. -/
structure Device where
  name : String
  host : String
  home_packages : List String
  slideshow_component : String
  adb_port : Int
deriving DecidableEq

/-- The slideshow_component-or-app fallback of _normalize_device (config.py
line 51): device.get("slideshow_component") or device.get("app") under
Python truthiness. -/
def normalize_sc (device : RawDevice) : Option String :=
  match device.slideshow_component with
  | some s => if s == "" then device.app else some s
  | none => device.app

/-- _normalize_device (config.py lines 47-79). Hosts are modelled as strings
(YAML may also supply ints, which the source stringifies; the claims under
check only concern missing or empty hosts). -/
def normalize_device (device : RawDevice) (idx : Nat) : Except ConfigError Device :=
  let name : String :=
    match device.name with
    | some n => if n == "" then "device_" ++ toString idx else n
    | none => "device_" ++ toString idx
  let home_packages : List String :=
    match device.home_packages with
    | some l => if l.isEmpty then DEF_HOME_PACKAGES else l
    | none => DEF_HOME_PACKAGES
  let sc : Option String := normalize_sc device
  let adb_port : Int := device.adb_port.getD 5555
  if device.host == none || device.host == some "" then
    .error ⟨"Device " ++ name ++ " is missing a valid 'host' field"⟩
  else
    match sc with
    | none => .error ⟨"Device " ++ name ++ " is missing 'slideshow_component'"⟩
    | some sc' =>
      if sc' == "" then .error ⟨"Device " ++ name ++ " is missing 'slideshow_component'"⟩
      else if home_packages.isEmpty then
        .error ⟨"Device " ++ name ++ " must have a non-empty 'home_packages' list"⟩
      else if adb_port ≤ 0 then
        .error ⟨"Device " ++ name ++ " has invalid adb_port"⟩
      else
        .ok { name := name, host := device.host.getD "", home_packages := home_packages,
              slideshow_component := sc', adb_port := adb_port }

/-- _normalize_mqtt input: the raw mqtt mapping (file section or the merged
env-overridden dict); none means an absent key. -/
structure MqttRaw where
  host : Option String := none
  port : Option Int := none
  topicPrefix : Option String := none
  username : Option String := none
  password : Option String := none
deriving DecidableEq

/-- The mapping returned by _normalize_mqtt (config.py lines 96-102). -/
structure MqttCfg where
  host : String
  port : Int
  topicPrefix : String
  username : Option String
  password : Option String
deriving DecidableEq

/-- topic_prefix.rstrip("/") (config.py line 99). -/
def rstrip_slash (s : String) : String :=
  ⟨(s.data.reverse.dropWhile (fun c => c == '/')).reverse⟩

/-- _normalize_mqtt (config.py lines 82-102). -/
def normalize_mqtt (m : MqttRaw) : Except ConfigError MqttCfg :=
  let port := m.port.getD 1883
  let tp := m.topicPrefix.getD "home/firestick"
  match m.host with
  | none => .error ⟨"mqtt.host must be a non-empty string"⟩
  | some h =>
    if h == "" then .error ⟨"mqtt.host must be a non-empty string"⟩
    else if port ≤ 0 then .error ⟨"mqtt.port must be a positive integer"⟩
    else if tp == "" then .error ⟨"mqtt.topic_prefix must be a non-empty string"⟩
    else .ok { host := h, port := port, topicPrefix := rstrip_slash tp,
               username := m.username, password := m.password }

/-- Insertion into an ascending list of strings (for Python sorted()). -/
def insert_sorted_string (x : String) : List String → List String
  | [] => [x]
  | y :: ys => if chars_lt x.data y.data then x :: y :: ys else y :: insert_sorted_string x ys

/-- Python sorted() over strings (lexicographic code-point order). -/
def sort_strings (l : List String) : List String :=
  l.foldr insert_sorted_string []

/-- Insertion into an ascending list of naturals (for Python sorted()). -/
def insert_sorted_nat (x : Nat) : List Nat → List Nat
  | [] => [x]
  | y :: ys => if x < y then x :: y :: ys else y :: insert_sorted_nat x ys

/-- Python sorted() over indices. -/
def sort_nats (l : List Nat) : List Nat :=
  l.foldr insert_sorted_nat []

/-- The regex of build_devices_from_env (config.py lines 149-151):
FIRESTICK_MINDER_DEVICE_([A-Z0-9]+)_(HOST|APP|ADB_PORT) with IGNORECASE;
returns the uppercased name and the field. Since the name group admits no
underscore, trying the three field suffixes on the uppercased key is
equivalent to the regex. -/
def parse_structured_device_key (key : String) : Option (String × String) :=
  let k := chars_upper key.data
  let pre := "FIRESTICK_MINDER_DEVICE_".data
  if starts_with_chars pre k then
    let rest := k.drop pre.length
    let tryField : String → Option (String × String) := fun suf =>
      let sufc := '_' :: suf.data
      if ends_with_chars sufc rest then
        let name := rest.take (rest.length - sufc.length)
        if ¬ name.isEmpty ∧ name.all (fun c => c.isUpper || c.isDigit) then
          some (⟨name⟩, suf)
        else none
      else none
    tryField "ADB_PORT" <|> tryField "HOST" <|> tryField "APP"
  else none

/-- Accumulator entry for build_devices_from_env (devices_raw values). -/
structure StructEntry where
  name : String
  host : Option String := none
  app : Option String := none
  adb_port : Option Int := none
deriving DecidableEq

/-- devices_raw.setdefault(name, dict(name)) followed by a field update,
preserving first-touch insertion order. -/
def update_struct_entry : List (String × StructEntry) → String → (StructEntry → StructEntry) →
    List (String × StructEntry)
  | [], name, f => [(name, f { name := name })]
  | (k, v) :: rest, name, f =>
    if k == name then (k, f v) :: rest
    else (k, v) :: update_struct_entry rest name f

/-- The environment scan of build_devices_from_env (config.py lines 154-168);
an invalid ADB_PORT value raises ConfigError mid-scan, as in the source. -/
def build_devices_from_env_scan : Env → List (String × StructEntry) →
    Except ConfigError (List (String × StructEntry))
  | [], acc => .ok acc
  | (key, value) :: rest, acc =>
    match parse_structured_device_key key with
    | none => build_devices_from_env_scan rest acc
    | some (name, field) =>
      if field == "HOST" then
        build_devices_from_env_scan rest
          (update_struct_entry acc name (fun s => { s with host := some value }))
      else if field == "APP" then
        build_devices_from_env_scan rest
          (update_struct_entry acc name (fun s => { s with app := some value }))
      else
        match parse_int_env (some value) key with
        | .error err => .error err
        | .ok p =>
          build_devices_from_env_scan rest
            (update_struct_entry acc name (fun s => { s with adb_port := p }))

/-- build_devices_from_env (config.py lines 146-180): devices from the
FIRESTICK_MINDER_DEVICE_* variables, sorted by name; entries without a host
are skipped; adb_port defaults to 5555. -/
def build_devices_from_env (e : Env) : Except ConfigError (List RawDevice) :=
  match build_devices_from_env_scan e [] with
  | .error err => .error err
  | .ok raw =>
    .ok ((sort_strings (raw.map (fun p => p.1))).filterMap (fun n =>
      match raw.find? (fun p => p.1 == n) with
      | none => none
      | some (_, entry) =>
        match entry.host with
        | none => none
        | some h =>
          some { name := some entry.name, host := some h, app := entry.app,
                 adb_port := some (entry.adb_port.getD 5555) }))

/-- The regexes of load_env_devices (config.py lines 108-109):
PREFIX(\d+)_([A-Z_]+), case-sensitive; returns (index, field). -/
def parse_indexed_device_key (pre : String) (key : String) : Option (Nat × String) :=
  let kc := key.data
  let prec := pre.data
  if starts_with_chars prec kc then
    let rest := kc.drop prec.length
    let digits := rest.takeWhile Char.isDigit
    if digits.isEmpty then none
    else
      match rest.drop digits.length with
      | '_' :: field =>
        if ¬ field.isEmpty ∧ field.all (fun c => c.isUpper || c == '_') then
          some (digits_to_nat digits 0, ⟨field⟩)
        else none
      | _ => none
  else none

/-- Accumulator entry for load_env_devices (devices_raw values). -/
structure IdxEntry where
  host : Option String := none
  name : Option String := none
  slideshow_component : Option String := none
deriving DecidableEq

/-- devices_raw.setdefault(idx, dict()) followed by a field update. -/
def update_idx_entry : List (Nat × IdxEntry) → Nat → (IdxEntry → IdxEntry) →
    List (Nat × IdxEntry)
  | [], idx, f => [(idx, f {})]
  | (k, v) :: rest, idx, f =>
    if k == idx then (k, f v) :: rest
    else (k, v) :: update_idx_entry rest idx f

/-- _apply_device_field (config.py lines 112-119); unrecognized fields still
create the entry via setdefault. -/
def apply_device_field (acc : List (Nat × IdxEntry)) (idx : Nat) (field value : String) :
    List (Nat × IdxEntry) :=
  if field == "HOST" || field == "IP" then
    update_idx_entry acc idx (fun s => { s with host := some value })
  else if field == "NAME" then
    update_idx_entry acc idx (fun s => { s with name := some value })
  else if field == "IDLE_APP" then
    update_idx_entry acc idx (fun s => { s with slideshow_component := some value })
  else
    update_idx_entry acc idx id

/-- load_env_devices (config.py lines 105-143): devices from the indexed
FSM_DEVICE_n_* / RUNNER_DEVICE_n_* variables, sorted by index; empty entries
and entries without a host are skipped; names default to device_idx. -/
def load_env_devices (e : Env) : List RawDevice :=
  let raw := e.foldl (fun acc kv =>
    match parse_indexed_device_key "FSM_DEVICE_" kv.1 with
    | some (idx, field) => apply_device_field acc idx field kv.2
    | none =>
      match parse_indexed_device_key "RUNNER_DEVICE_" kv.1 with
      | some (idx, field) => apply_device_field acc idx field kv.2
      | none => acc) []
  (sort_nats (raw.map (fun p => p.1))).filterMap (fun i =>
    match raw.find? (fun p => p.1 == i) with
    | none => none
    | some (_, entry) =>
      match entry.host with
      | none => none
      | some h =>
        some { name := some (entry.name.getD ("device_" ++ toString i)),
               host := some h, slideshow_component := entry.slideshow_component })

/-- One entry of the legacy RUNNER_DEVICES shorthand (config.py lines
191-228); malformed entries are skipped with a log line, never fatal. -/
def parse_runner_devices_entry (entry0 : String) : Option RawDevice :=
  let entry := py_strip_chars entry0.data
  if entry.isEmpty then none
  else
    match split_once_char '=' entry with
    | none => none
    | some (name_part, value_part) =>
      let name := py_strip_chars name_part
      if name.isEmpty then none
      else if value_part.isEmpty then none
      else
        match split_once_char ':' value_part with
        | none => some { name := some ⟨name⟩, host := some ⟨value_part⟩,
                         adb_port := some 5555 }
        | some (host, port_part) =>
          if host.isEmpty then none
          else if port_part.isEmpty then
            some { name := some ⟨name⟩, host := some ⟨host⟩, adb_port := some 5555 }
          else
            match parse_int_env (some ⟨port_part⟩)
                ("RUNNER_DEVICES[" ++ String.mk name ++ "]") with
            | .error _ => none
            | .ok p => some { name := some ⟨name⟩, host := some ⟨host⟩,
                              adb_port := some (p.getD 5555) }

/-- build_devices_from_runner_devices (config.py lines 183-230). -/
def build_devices_from_runner_devices (raw : String) : List RawDevice :=
  if raw == "" then []
  else (split_on_char ',' raw.data).filterMap (fun cs => parse_runner_devices_entry ⟨cs⟩)

/-- The regex of _first_runner_device_idle_timeout (config.py line 234):
RUNNER_DEVICE_(\d+)_IDLE_TIMEOUT; returns the numeric index. -/
def parse_runner_idle_timeout_key (key : String) : Option Nat :=
  let kc := key.data
  let prec := "RUNNER_DEVICE_".data
  let sufc := "_IDLE_TIMEOUT".data
  if starts_with_chars prec kc ∧ ends_with_chars sufc kc ∧
      prec.length + sufc.length < kc.length then
    let mid := (kc.drop prec.length).take (kc.length - prec.length - sufc.length)
    if ¬ mid.isEmpty ∧ mid.all Char.isDigit then some (digits_to_nat mid 0) else none
  else none

/-- One scan step of _first_runner_device_idle_timeout (config.py lines
238-246): keep the entry with the smallest index, first-seen winning at
equal indices (idx < first_match is strict in the source). -/
def runner_idle_timeout_step (acc : Option (Nat × String)) (kv : String × String) :
    Option (Nat × String) :=
  match parse_runner_idle_timeout_key kv.1 with
  | none => acc
  | some idx =>
    match acc with
    | none => some (idx, kv.2)
    | some (i0, v0) => if idx < i0 then some (idx, kv.2) else some (i0, v0)

/-- _first_runner_device_idle_timeout (config.py lines 233-251): value of the
RUNNER_DEVICE_n_IDLE_TIMEOUT variable with the lowest index, plus the name
to report. -/
def first_runner_device_idle_timeout (e : Env) : Option String × String :=
  match e.foldl runner_idle_timeout_step none with
  | none => (none, "FSM_IDLE_TIMEOUT")
  | some (i, v) => (some v, "RUNNER_DEVICE_" ++ toString i ++ "_IDLE_TIMEOUT")

/-- The YAML configuration mapping, restricted to the keys _build_config
reads, with the value types the source accepts (wrong-typed values raise in
the source and are not modelled). idle_timeout_seconds distinguishes an
absent key from a key set to None. -/
structure FileCfg where
  idle_app : Option String := none
  app : Option String := none
  poll_interval_seconds : Option Int := none
  idle_timeout_seconds : Option (Option Int) := none
  log_level : Option String := none
  devices : Option (List RawDevice) := none
  mqtt : Option MqttRaw := none
deriving DecidableEq

/-- The YAML stage of idle-app resolution (config.py lines 319-327): idle_app
falling back to app under Python truthiness, validated non-blank and
stripped. -/
def yaml_idle_app_value (f : FileCfg) : Except ConfigError (Option String) :=
  let yaml_idle_app : Option String :=
    match f.idle_app with
    | some s => if s == "" then f.app else some s
    | none => f.app
  match yaml_idle_app with
  | some s =>
    if py_strip s == "" then .error ⟨"idle_app/app must be a non-empty string if provided"⟩
    else .ok (some (py_strip s))
  | none => .ok none

/-- Idle-app resolution (config.py lines 319-337): the YAML stage, then
overridden by MINDER_APP or RUNNER_APP when truthy (the env value is used
unstripped). -/
def resolve_idle_app (f : FileCfg) (e : Env) : Except ConfigError (Option String) :=
  match yaml_idle_app_value f with
  | .error err => .error err
  | .ok idle_app =>
    let env_idle_app : Option String :=
      match getenv e "MINDER_APP" with
      | some v => if v == "" then getenv e "RUNNER_APP" else some v
      | none => getenv e "RUNNER_APP"
    match env_idle_app with
    | some v => if v == "" then .ok idle_app else .ok (some v)
    | none => .ok idle_app

/-- The YAML stage of poll-interval resolution (config.py lines 339-345):
the YAML value, validated positive; default 5. -/
def yaml_poll_interval_value (f : FileCfg) : Except ConfigError Int :=
  match f.poll_interval_seconds with
  | some v =>
    if v ≤ 0 then .error ⟨"poll_interval_seconds must be a positive integer"⟩
    else .ok v
  | none => .ok 5

/-- Poll-interval resolution (config.py lines 339-359): the YAML stage, then
FSM_POLL_INTERVAL, falling back to RUNNER_POLL_SECONDS, parsed by
_parse_int_env. -/
def resolve_poll_interval (f : FileCfg) (e : Env) : Except ConfigError Int :=
  match yaml_poll_interval_value f with
  | .error err => .error err
  | .ok poll_interval =>
    let env_val_name : Option String × String :=
      match getenv e "FSM_POLL_INTERVAL" with
      | some v => (some v, "FSM_POLL_INTERVAL")
      | none => (getenv e "RUNNER_POLL_SECONDS", "RUNNER_POLL_SECONDS")
    match parse_int_env env_val_name.1 env_val_name.2 with
    | .error err => .error err
    | .ok (some n) => .ok n
    | .ok none => .ok poll_interval

/-- The YAML stage of idle-timeout resolution (config.py lines 361-370):
the YAML value (absent, None, or a validated positive int). -/
def yaml_idle_timeout_value (f : FileCfg) : Except ConfigError (Option Int) :=
  match f.idle_timeout_seconds with
  | some (some v) =>
    if v ≤ 0 then .error ⟨"idle_timeout_seconds, if set, must be a positive integer"⟩
    else .ok (some v)
  | some none => .ok none
  | none => .ok none

/-- Idle-timeout resolution (config.py lines 361-386): the YAML stage, then
FSM_IDLE_TIMEOUT, falling back to RUNNER_IDLE_TIMEOUT, falling back to the
first (lowest-index) RUNNER_DEVICE_n_IDLE_TIMEOUT; none means the idle
timer is disabled. -/
def resolve_idle_timeout (f : FileCfg) (e : Env) : Except ConfigError (Option Int) :=
  match yaml_idle_timeout_value f with
  | .error err => .error err
  | .ok idle_timeout =>
    let env_val_name : Option String × String :=
      match getenv e "FSM_IDLE_TIMEOUT" with
      | some v => (some v, "FSM_IDLE_TIMEOUT")
      | none =>
        match getenv e "RUNNER_IDLE_TIMEOUT" with
        | some v => (some v, "RUNNER_IDLE_TIMEOUT")
        | none => first_runner_device_idle_timeout e
    match parse_int_env env_val_name.1 env_val_name.2 with
    | .error err => .error err
    | .ok (some n) => .ok (some n)
    | .ok none => .ok idle_timeout

/-- Log-level resolution (config.py lines 388-394): FSM_LOG_LEVEL when the
key is present (even empty), else the YAML field when a file was loaded,
else "info". -/
def resolve_log_level (f : FileCfg) (yaml_loaded : Bool) (e : Env) : String :=
  let log_level := if yaml_loaded then f.log_level.getD "info" else "info"
  match getenv e "FSM_LOG_LEVEL" with
  | some v => v
  | none => log_level

/-- Device-list source selection (config.py lines 396-433): structured env
devices, else indexed env devices, else the YAML list, else the parsed
legacy RUNNER_DEVICES shorthand (an empty parse leaves the list empty). -/
def choose_raw_devices (f : FileCfg) (yaml_loaded : Bool) (e : Env)
    (env_devices_structured env_devices_indexed : List RawDevice) : List RawDevice :=
  let yaml_devices_config : List RawDevice :=
    if yaml_loaded then f.devices.getD [] else []
  if ¬ env_devices_structured.isEmpty then env_devices_structured
  else if ¬ env_devices_indexed.isEmpty then env_devices_indexed
  else if yaml_loaded ∧ ¬ yaml_devices_config.isEmpty then yaml_devices_config
  else
    match getenv e "RUNNER_DEVICES" with
    | some raw => if raw == "" then [] else build_devices_from_runner_devices raw
    | none => []

/-- The per-device copy-and-fallback step of _build_config (config.py lines
437-443): copy app into slideshow_component on key absence, fall back to
the global idle app when the component is falsy, default adb_port. -/
def apply_component_fallbacks (idle_app : Option String) (dev : RawDevice) : RawDevice :=
  let dev :=
    if dev.slideshow_component == none ∧ dev.app ≠ none then
      { dev with slideshow_component := dev.app }
    else dev
  let dev :=
    match idle_app with
    | some ia =>
      if ia ≠ "" ∧ (dev.slideshow_component == none ∨ dev.slideshow_component == some "") then
        { dev with slideshow_component := some ia }
      else dev
    | none => dev
  if dev.adb_port == none then { dev with adb_port := some 5555 } else dev

/-- One iteration of the device loop of _build_config (config.py lines
436-444): the fallback step followed by _normalize_device. -/
def process_raw_device (idle_app : Option String) (idx : Nat) (dev : RawDevice) :
    Except ConfigError Device :=
  normalize_device (apply_component_fallbacks idle_app dev) idx

/-- A raw device's host is missing or empty (the Python falsiness that makes
_normalize_device reject it). -/
def lacks_host (d : RawDevice) : Prop :=
  d.host = none ∨ d.host = some ""

/-- The idle-target component a raw device ends up with after the whole
fallback chain: the app copy and global idle-app fallback of _build_config
(config.py lines 437-441) composed with the slideshow_component-or-app
fallback inside _normalize_device (config.py line 51). -/
def effective_component (idle_app : Option String) (d : RawDevice) : Option String :=
  normalize_sc (apply_component_fallbacks idle_app d)

/-- A raw device's idle-target component is unresolvable: the fallback chain
leaves it missing or empty, so _normalize_device rejects the device. -/
def lacks_component (idle_app : Option String) (d : RawDevice) : Prop :=
  effective_component idle_app d = none ∨ effective_component idle_app d = some ""

/-- The device normalization loop of _build_config (config.py lines 435-444),
threading the enumerate index. -/
def process_devices_from (idle_app : Option String) : Nat → List RawDevice →
    Except ConfigError (List Device)
  | _, [] => .ok []
  | idx, d :: rest =>
    match process_raw_device idle_app idx d with
    | .error err => .error err
    | .ok nd =>
      match process_devices_from idle_app (idx + 1) rest with
      | .error err => .error err
      | .ok nrest => .ok (nd :: nrest)

/-- The device normalization loop, starting at index 0. -/
def process_devices (idle_app : Option String) (raw : List RawDevice) :
    Except ConfigError (List Device) :=
  process_devices_from idle_app 0 raw

/-- Python truthiness of an optional environment string. -/
def env_truthy : Option String → Bool
  | some s => s ≠ ""
  | none => false

/-- The field-by-field env override of the mqtt mapping (config.py lines
485-491): a truthy FSM_MQTT_HOST replaces host, a parsed FSM_MQTT_PORT
replaces port, a truthy FSM_MQTT_TOPIC_PREFIX replaces the topic prefix;
an absent or falsy variable leaves the field as the file supplied it. -/
def merge_env_mqtt (base : MqttRaw) (env_mqtt_host : Option String)
    (env_mqtt_port : Option Int) (env_mqtt_tp : Option String) : MqttRaw :=
  let base :=
    match env_mqtt_host with
    | some h => if h ≠ "" then { base with host := some h } else base
    | none => base
  let base :=
    match env_mqtt_port with
    | some p => { base with port := some p }
    | none => base
  match env_mqtt_tp with
  | some t => if t ≠ "" then { base with topicPrefix := some t } else base
  | none => base

/-- Telemetry resolution (config.py lines 457-497): normalize the file mqtt
section if present, read the FSM_MQTT_* variables, honour an explicit
disable, otherwise merge env fields over the section under Python
truthiness and re-normalize. -/
def resolve_mqtt (f : FileCfg) (yaml_loaded : Bool) (e : Env) :
    Except ConfigError (Option MqttCfg) :=
  let yaml_mqtt : Option MqttRaw := if yaml_loaded then f.mqtt else none
  let step1 : Except ConfigError (Option MqttCfg) :=
    match yaml_mqtt with
    | some m =>
      match normalize_mqtt m with
      | .error err => .error err
      | .ok n => .ok (some n)
    | none => .ok none
  match step1 with
  | .error err => .error err
  | .ok mqtt_cfg =>
    match parse_bool_env (getenv e "FSM_MQTT_ENABLED") with
    | .error err => .error err
    | .ok env_mqtt_enabled =>
      let env_mqtt_host := getenv e "FSM_MQTT_HOST"
      match parse_int_env (getenv e "FSM_MQTT_PORT") "FSM_MQTT_PORT" with
      | .error err => .error err
      | .ok env_mqtt_port =>
        let env_mqtt_tp := getenv e "FSM_MQTT_TOPIC_PREFIX"
        if env_mqtt_enabled == some false then .ok none
        else if env_mqtt_enabled == some true || env_truthy env_mqtt_host ||
            env_mqtt_port.isSome || env_truthy env_mqtt_tp then
          let base : MqttRaw :=
            match mqtt_cfg with
            | some n => { host := some n.host, port := some n.port,
                          topicPrefix := some n.topicPrefix,
                          username := n.username, password := n.password }
            | none => {}
          match normalize_mqtt (merge_env_mqtt base env_mqtt_host env_mqtt_port env_mqtt_tp) with
          | .error err => .error err
          | .ok n => .ok (some n)
        else
          match mqtt_cfg with
          | some n =>
            match normalize_mqtt { host := some n.host, port := some n.port,
                                   topicPrefix := some n.topicPrefix,
                                   username := n.username, password := n.password } with
            | .error err => .error err
            | .ok n2 => .ok (some n2)
          | none => .ok none

/-- The behaviour-relevant part of the mapping _build_config returns
(config.py lines 526-538); the provenance bookkeeping (sources,
env_devices_count, env_present, config_path) is diagnostic only and not
modelled. -/
structure Config where
  poll_interval_seconds : Int
  idle_timeout_seconds : Option Int
  devices : List Device
  mqtt : Option MqttCfg
  log_level : String
  idle_app : Option String
deriving DecidableEq

/-- _build_config (config.py lines 309-538), composed from the per-field
stages in the source's evaluation (and hence error-precedence) order:
env device builders first, then idle app, poll interval, idle timeout,
log level, device selection and normalization, the no-devices check,
and finally mqtt. -/
def build_config (f : FileCfg) (yaml_loaded : Bool) (e : Env) :
    Except ConfigError Config :=
  match build_devices_from_env e with
  | .error err => .error err
  | .ok env_devices_structured =>
    let env_devices_indexed := load_env_devices e
    match resolve_idle_app f e with
    | .error err => .error err
    | .ok idle_app =>
      match resolve_poll_interval f e with
      | .error err => .error err
      | .ok poll_interval =>
        match resolve_idle_timeout f e with
        | .error err => .error err
        | .ok idle_timeout =>
          let log_level := resolve_log_level f yaml_loaded e
          let raw_devices :=
            choose_raw_devices f yaml_loaded e env_devices_structured env_devices_indexed
          match process_devices idle_app raw_devices with
          | .error err => .error err
          | .ok devices =>
            if devices.isEmpty then
              .error ⟨"Config error: no devices configured; set RUNNER_DEVICES or FIRESTICK_MINDER_DEVICE_<NAME>_HOST."⟩
            else
              match resolve_mqtt f yaml_loaded e with
              | .error err => .error err
              | .ok mqtt =>
                .ok { poll_interval_seconds := poll_interval,
                      idle_timeout_seconds := idle_timeout,
                      devices := devices, mqtt := mqtt,
                      log_level := log_level, idle_app := idle_app }

/-- The per-device, per-tick decision pipeline of main_loop (firestick_minder.py
lines 449-466): derive home_screen and in_target_app from the foreground
package, then advance the idle FSM. -/
def device_tick (dev : Device) (state : IdleState) (foreground_pkg : Option String)
    (media_playing : Bool) (poll_interval : ℚ) (timeout : Option ℚ) :
    IdleState × Bool × Bool :=
  update_idle_state state
    (derive_home_screen foreground_pkg dev.home_packages)
    (derive_in_target_app foreground_pkg dev.slideshow_component)
    media_playing poll_interval timeout

/-!
Theorems. Each claim of the specification is settled by one theorem below;
general-purpose lemmas about the embedded functions come first.
-/

theorem update_idle_state_nonneg (s : IdleState) (h i m : Bool) (p : ℚ) (t : Option ℚ)
    (h0 : 0 ≤ s.idle_seconds) (hp : 0 < p) :
    0 ≤ (update_idle_state s h i m p t).1.idle_seconds := by
  unfold update_idle_state
  dsimp only
  split
  all_goals split
  all_goals first
    | exact le_refl 0
    | exact add_nonneg h0 hp.le

theorem update_idle_state_reset (s : IdleState) (h i m : Bool) (p : ℚ) (t : Option ℚ)
    (hre : (update_idle_state s h i m p t).2.2 = false ∨
      (update_idle_state s h i m p t).2.1 = true) :
    (update_idle_state s h i m p t).1.idle_seconds = 0 := by
  unfold update_idle_state at hre ⊢
  dsimp only at hre ⊢
  rcases hre with he | hl
  · rw [he]
    simp
  · rw [hl]
    simp

theorem run_idle_trace_invariant (L : List IdleInput) : ∀ (s : IdleState),
    0 ≤ s.idle_seconds → (∀ i ∈ L, 0 < i.poll_interval) →
    ∀ r ∈ run_idle_trace s L,
      0 ≤ r.1.idle_seconds ∧ ((r.2.2 = false ∨ r.2.1 = true) → r.1.idle_seconds = 0) := by
  induction L with
  | nil =>
    intro s h0 hp r hr
    simp [run_idle_trace] at hr
  | cons a l ih =>
    intro s h0 hp r hr
    simp only [run_idle_trace, List.mem_cons] at hr
    rcases hr with rfl | hr
    · refine ⟨?_, ?_⟩
      · exact update_idle_state_nonneg _ _ _ _ _ _ h0 (hp a (List.mem_cons_self a l))
      · intro hre
        exact update_idle_state_reset _ _ _ _ _ _ hre
    · exact ih _ (update_idle_state_nonneg _ _ _ _ _ _ h0 (hp a (List.mem_cons_self a l)))
        (fun i hi => hp i (List.mem_cons_of_mem _ hi)) r hr

/-- Claim C1, counterexample to the claim as stated: at idleSeconds = 55,
homeScreen = true, inTargetApp = false, mediaPlaying = false,
pollIntervalSeconds = 5, timeoutSeconds = 60 the tick is idle-eligible, so
the claim predicts a returned idleSeconds of 55 + 5 = 60; the code launches
and returns idleSeconds = 0. -/
theorem c1_counterexample :
    (update_idle_state ⟨55⟩ true false false 5 (some 60)).2.2 = true ∧
    (update_idle_state ⟨55⟩ true false false 5 (some 60)).1.idle_seconds = 0 ∧
    (update_idle_state ⟨55⟩ true false false 5 (some 60)).1.idle_seconds ≠ (55 : ℚ) + 5 := by
  refine ⟨rfl, ?_, ?_⟩
  · norm_num [update_idle_state]
  · norm_num [update_idle_state]

/-- Claim C1 (amended): for every state with idleSeconds ≥ 0, every
combination of the booleans, every positive pollIntervalSeconds and every
optional timeoutSeconds, update_idle_state returns
idleEligible = homeScreen AND NOT mediaPlaying AND NOT inTargetApp; the
accumulated idle value is the old idleSeconds plus pollIntervalSeconds if
eligible and exactly 0 otherwise; shouldLaunch = idleEligible AND the
accumulated value ≥ effectiveTimeout AND NOT inTargetApp, with
effectiveTimeout the timeout when present and 0 when absent; and the
returned idleSeconds equals the accumulated value except that it is reset
to exactly 0 when shouldLaunch is true. -/
theorem c1_update_idle_state_contract (s : IdleState)
    (home_screen in_target_app media_playing : Bool)
    (poll_interval : ℚ) (timeout : Option ℚ)
    (h0 : 0 ≤ s.idle_seconds) (hp : 0 < poll_interval) :
    (update_idle_state s home_screen in_target_app media_playing poll_interval timeout).2.2
      = (home_screen && !media_playing && !in_target_app) ∧
    (update_idle_state s home_screen in_target_app media_playing poll_interval timeout).2.1
      = ((home_screen && !media_playing && !in_target_app) &&
          decide (timeout.getD 0 ≤
            (if home_screen && !media_playing && !in_target_app then
              s.idle_seconds + poll_interval else 0)) && !in_target_app) ∧
    (update_idle_state s home_screen in_target_app media_playing
        poll_interval timeout).1.idle_seconds
      = (if (update_idle_state s home_screen in_target_app media_playing
            poll_interval timeout).2.1 then 0
          else if home_screen && !media_playing && !in_target_app then
            s.idle_seconds + poll_interval else 0) := by
  refine ⟨rfl, ?_, ?_⟩ <;> cases timeout <;> rfl

/-- Witness for C1 (amended) at the counterexample's input. -/
theorem c1_update_idle_state_contract_witness :
    (0 : ℚ) ≤ 55 ∧ (0 : ℚ) < 5 ∧
    ((update_idle_state ⟨55⟩ true false false 5 (some 60)).2.2
        = (true && !false && !false) ∧
      (update_idle_state ⟨55⟩ true false false 5 (some 60)).2.1
        = ((true && !false && !false) &&
            decide ((some (60 : ℚ)).getD 0 ≤
              (if true && !false && !false then
                (IdleState.mk 55).idle_seconds + 5 else 0)) && !false) ∧
      (update_idle_state ⟨55⟩ true false false 5 (some 60)).1.idle_seconds
        = (if (update_idle_state ⟨55⟩ true false false 5 (some 60)).2.1 then 0
            else if true && !false && !false then
              (IdleState.mk 55).idle_seconds + 5 else 0)) :=
  ⟨by norm_num, by norm_num,
    c1_update_idle_state_contract ⟨55⟩ true false false 5 (some 60)
      (by norm_num) (by norm_num)⟩

/-- Claim C2: along every finite sequence of update_idle_state calls started
from a fresh state with idleSeconds = 0 and using a positive
pollIntervalSeconds on each call, idleSeconds is non-negative after every
call, and after any call whose returned idleEligible is false or whose
returned shouldLaunch is true the resulting idleSeconds is exactly 0. -/
theorem c2_idle_trace_nonneg_and_reset (L : List IdleInput)
    (hp : ∀ i ∈ L, 0 < i.poll_interval)
    (r : IdleState × Bool × Bool) (hr : r ∈ run_idle_trace ⟨0⟩ L) :
    0 ≤ r.1.idle_seconds ∧ ((r.2.2 = false ∨ r.2.1 = true) → r.1.idle_seconds = 0) :=
  run_idle_trace_invariant L ⟨0⟩ (le_refl 0) hp r hr

/-- Witness for C2 on a one-tick sequence whose tick launches. -/
theorem c2_idle_trace_nonneg_and_reset_witness :
    (∀ i ∈ [IdleInput.mk true false false 5 (some 3)], 0 < i.poll_interval) ∧
    (0 ≤ ((⟨0⟩, true, true) : IdleState × Bool × Bool).1.idle_seconds ∧
      ((((⟨0⟩, true, true) : IdleState × Bool × Bool).2.2 = false ∨
        ((⟨0⟩, true, true) : IdleState × Bool × Bool).2.1 = true) →
        ((⟨0⟩, true, true) : IdleState × Bool × Bool).1.idle_seconds = 0)) := by
  have hp0 : ∀ i ∈ [IdleInput.mk true false false 5 (some 3)], 0 < i.poll_interval := by
    intro i hi
    simp only [List.mem_singleton] at hi
    subst hi
    norm_num
  have hstep : update_idle_state ⟨0⟩ true false false 5 (some 3) = (⟨0⟩, true, true) := by
    norm_num [update_idle_state]
  have hr0 : ((⟨0⟩, true, true) : IdleState × Bool × Bool) ∈
      run_idle_trace ⟨0⟩ [IdleInput.mk true false false 5 (some 3)] := by
    simp [run_idle_trace, hstep]
  exact ⟨hp0, c2_idle_trace_nonneg_and_reset _ hp0 _ hr0⟩

/-- Claim C3: update_idle_state is a pure, deterministic function of the
listed inputs: two calls with equal input idleSeconds and equal booleans,
poll interval and timeout return identical (state, shouldLaunch,
idleEligible) triples. -/
theorem c3_update_idle_state_deterministic (s₁ s₂ : IdleState) (h₁ h₂ i₁ i₂ m₁ m₂ : Bool)
    (p₁ p₂ : ℚ) (t₁ t₂ : Option ℚ)
    (hs : s₁.idle_seconds = s₂.idle_seconds) (hh : h₁ = h₂) (hi : i₁ = i₂)
    (hm : m₁ = m₂) (hp : p₁ = p₂) (ht : t₁ = t₂) :
    update_idle_state s₁ h₁ i₁ m₁ p₁ t₁ = update_idle_state s₂ h₂ i₂ m₂ p₂ t₂ := by
  obtain ⟨a⟩ := s₁
  obtain ⟨b⟩ := s₂
  subst hh
  subst hi
  subst hm
  subst hp
  subst ht
  simp only [IdleState.mk.injEq] at hs ⊢
  subst hs
  rfl

/-- Witness for C3 at one concrete pair of identical calls. -/
theorem c3_update_idle_state_deterministic_witness :
    update_idle_state ⟨10⟩ true false true 2 none
      = update_idle_state ⟨10⟩ true false true 2 none :=
  c3_update_idle_state_deterministic ⟨10⟩ ⟨10⟩ true true false false true true 2 2 none none
    rfl rfl rfl rfl rfl rfl

/-- Claim C10: on a tick whose foreground package is indeterminate (None),
the derived homeScreen and inTargetApp are both false, hence the tick is
not idle-eligible, the idle counter resets to 0 and no launch occurs. -/
theorem c10_indeterminate_foreground_never_launches (dev : Device) (state : IdleState)
    (media_playing : Bool) (poll_interval : ℚ) (timeout : Option ℚ) :
    derive_home_screen none dev.home_packages = false ∧
    derive_in_target_app none dev.slideshow_component = false ∧
    (device_tick dev state none media_playing poll_interval timeout).2.2 = false ∧
    (device_tick dev state none media_playing poll_interval timeout).2.1 = false ∧
    (device_tick dev state none media_playing poll_interval timeout).1.idle_seconds = 0 :=
  ⟨rfl, rfl, rfl, rfl, rfl⟩

theorem apply_component_fallbacks_host (ia : Option String) (d : RawDevice) :
    (apply_component_fallbacks ia d).host = d.host := by
  cases ia <;> unfold apply_component_fallbacks <;> dsimp only <;> split_ifs <;> rfl

theorem normalize_device_error_of_bad (dev : RawDevice) (idx : Nat)
    (hbad : (dev.host = none ∨ dev.host = some "") ∨
      (normalize_sc dev = none ∨ normalize_sc dev = some "")) :
    ∃ msg, normalize_device dev idx = .error msg := by
  unfold normalize_device
  dsimp only
  by_cases hh : (dev.host == none || dev.host == some "") = true
  · rw [if_pos hh]
    exact ⟨_, rfl⟩
  · rw [if_neg hh]
    rcases hbad with h1 | h1
    · exfalso
      apply hh
      rcases h1 with h | h <;> rw [h] <;> rfl
    · rcases h1 with h | h <;> rw [h]
      · exact ⟨_, rfl⟩
      · exact ⟨_, rfl⟩

theorem process_raw_device_error_of_bad (ia : Option String) (idx : Nat) (d : RawDevice)
    (hbad : lacks_host d ∨ lacks_component ia d) :
    ∃ msg, process_raw_device ia idx d = .error msg := by
  apply normalize_device_error_of_bad
  rcases hbad with h | h
  · left
    rw [apply_component_fallbacks_host]
    exact h
  · right
    exact h

theorem process_devices_from_error (ia : Option String) (d : RawDevice)
    (hbad : lacks_host d ∨ lacks_component ia d) :
    ∀ (raw : List RawDevice), d ∈ raw → ∀ (k : Nat),
    ∃ msg, process_devices_from ia k raw = .error msg := by
  intro raw
  induction raw with
  | nil =>
    intro hd
    cases hd
  | cons a l ih =>
    intro hd k
    rcases List.mem_cons.mp hd with rfl | hmem
    · obtain ⟨msg, hmsg⟩ := process_raw_device_error_of_bad ia k d hbad
      refine ⟨msg, ?_⟩
      unfold process_devices_from
      rw [hmsg]
    · cases hpr : process_raw_device ia k a with
      | error err =>
        refine ⟨err, ?_⟩
        unfold process_devices_from
        rw [hpr]
      | ok nd =>
        obtain ⟨msg, hmsg⟩ := ih hmem (k + 1)
        refine ⟨msg, ?_⟩
        unfold process_devices_from
        rw [hpr, hmsg]

/-- Claim C4: configuration resolution fails with a ConfigError whenever a
device that reaches normalization lacks a non-empty host or, after the
fallback to the global idle-target app, a non-empty idle-target component.
(Partial env entries without a host never reach normalization: the env
builders skip them.) The earlier resolution stages are assumed not to fail
first; if one does, resolution fails anyway, with that stage's error. -/
theorem c4_bad_device_fails_resolution (f : FileCfg) (yl : Bool) (e : Env)
    (st : List RawDevice) (ia : Option String) (p : Int) (t : Option Int) (d : RawDevice)
    (hst : build_devices_from_env e = .ok st)
    (hia : resolve_idle_app f e = .ok ia)
    (hpoll : resolve_poll_interval f e = .ok p)
    (ht : resolve_idle_timeout f e = .ok t)
    (hd : d ∈ choose_raw_devices f yl e st (load_env_devices e))
    (hbad : lacks_host d ∨ lacks_component ia d) :
    ∃ msg, build_config f yl e = .error msg := by
  obtain ⟨msg, hmsg⟩ := process_devices_from_error ia d hbad _ hd 0
  refine ⟨msg, ?_⟩
  unfold build_config
  rw [hst, hia, hpoll, ht]
  dsimp only
  unfold process_devices
  rw [hmsg]

/-- Witness for C4: a file-supplied device with no host at all. -/
theorem c4_bad_device_fails_resolution_witness :
    ∃ msg, build_config { devices := some [{}] } true [] = .error msg :=
  c4_bad_device_fails_resolution { devices := some [{}] } true [] [] none 5 none {}
    (by decide) (by decide) (by decide) (by decide) (by decide) (Or.inl (Or.inl rfl))

/-- Claim C8: an environment holding exactly
FIRESTICK_MINDER_DEVICE_LR_HOST=192.168.30.51 and
FIRESTICK_MINDER_DEVICE_LR_APP=com.example.app resolves to exactly one
device named LR with that host, that idle-target component and the default
port 5555 (with the built-in default home packages and all other fields at
their documented defaults). -/
theorem c8_structured_env_scenario :
    build_config {} false
      [("FIRESTICK_MINDER_DEVICE_LR_HOST", "192.168.30.51"),
       ("FIRESTICK_MINDER_DEVICE_LR_APP", "com.example.app")] =
    .ok { poll_interval_seconds := 5, idle_timeout_seconds := none,
          devices := [{ name := "LR", host := "192.168.30.51",
                        home_packages := DEF_HOME_PACKAGES,
                        slideshow_component := "com.example.app", adb_port := 5555 }],
          mqtt := none, log_level := "info", idle_app := none } := by decide

/-- Claim C5: per-field precedence of the globally-resolved scalar fields.
For idle-target app, poll interval, idle timeout and log level: a
newer-generation environment variable carrying a usable value wins over any
(valid) file value; a legacy environment variable alone is used; and with
no source at all the documented default applies (poll interval 5, log level
info, idle timeout disabled, idle app none). -/
theorem c5_scalar_field_precedence (f : FileCfg) (e : Env) :
    (∀ a v, yaml_idle_app_value f = .ok a → getenv e "MINDER_APP" = some v → v ≠ "" →
      resolve_idle_app f e = .ok (some v)) ∧
    (∀ a v, yaml_idle_app_value f = .ok a → getenv e "MINDER_APP" = none →
      getenv e "RUNNER_APP" = some v → v ≠ "" → resolve_idle_app f e = .ok (some v)) ∧
    (getenv e "MINDER_APP" = none → getenv e "RUNNER_APP" = none →
      f.idle_app = none → f.app = none → resolve_idle_app f e = .ok none) ∧
    (∀ p v n, yaml_poll_interval_value f = .ok p → getenv e "FSM_POLL_INTERVAL" = some v →
      parse_int_env (some v) "FSM_POLL_INTERVAL" = .ok (some n) →
      resolve_poll_interval f e = .ok n) ∧
    (∀ p v n, yaml_poll_interval_value f = .ok p → getenv e "FSM_POLL_INTERVAL" = none →
      getenv e "RUNNER_POLL_SECONDS" = some v →
      parse_int_env (some v) "RUNNER_POLL_SECONDS" = .ok (some n) →
      resolve_poll_interval f e = .ok n) ∧
    (getenv e "FSM_POLL_INTERVAL" = none → getenv e "RUNNER_POLL_SECONDS" = none →
      f.poll_interval_seconds = none → resolve_poll_interval f e = .ok 5) ∧
    (∀ t v n, yaml_idle_timeout_value f = .ok t → getenv e "FSM_IDLE_TIMEOUT" = some v →
      parse_int_env (some v) "FSM_IDLE_TIMEOUT" = .ok (some n) →
      resolve_idle_timeout f e = .ok (some n)) ∧
    (∀ t v n, yaml_idle_timeout_value f = .ok t → getenv e "FSM_IDLE_TIMEOUT" = none →
      getenv e "RUNNER_IDLE_TIMEOUT" = some v →
      parse_int_env (some v) "RUNNER_IDLE_TIMEOUT" = .ok (some n) →
      resolve_idle_timeout f e = .ok (some n)) ∧
    (getenv e "FSM_IDLE_TIMEOUT" = none → getenv e "RUNNER_IDLE_TIMEOUT" = none →
      first_runner_device_idle_timeout e = (none, "FSM_IDLE_TIMEOUT") →
      f.idle_timeout_seconds = none → resolve_idle_timeout f e = .ok none) ∧
    (∀ v, getenv e "FSM_LOG_LEVEL" = some v → resolve_log_level f true e = v) ∧
    (∀ yl, getenv e "FSM_LOG_LEVEL" = none → f.log_level = none →
      resolve_log_level f yl e = "info") := by
  refine ⟨?_, ?_, ?_, ?_, ?_, ?_, ?_, ?_, ?_, ?_, ?_⟩
  · intro a v ha hm hv
    unfold resolve_idle_app
    rw [ha, hm]
    have hb : (v == "") = false := beq_eq_false_iff_ne.mpr hv
    simp [hb]
  · intro a v ha hm hr hv
    unfold resolve_idle_app
    rw [ha, hm, hr]
    have hb : (v == "") = false := beq_eq_false_iff_ne.mpr hv
    simp [hb]
  · intro hm hr hfi hfa
    unfold resolve_idle_app yaml_idle_app_value
    rw [hm, hr, hfi, hfa]
  · intro p v n hp hfsm hparse
    unfold resolve_poll_interval
    rw [hp]
    dsimp only
    rw [hfsm]
    dsimp only
    rw [hparse]
  · intro p v n hp hfsm hrp hparse
    unfold resolve_poll_interval
    rw [hp]
    dsimp only
    rw [hfsm]
    dsimp only
    rw [hrp]
    rw [hparse]
  · intro hfsm hrp hfp
    unfold resolve_poll_interval yaml_poll_interval_value
    rw [hfp]
    dsimp only
    rw [hfsm]
    dsimp only
    rw [hrp]
    rfl
  · intro t v n ht hfsm hparse
    unfold resolve_idle_timeout
    rw [ht]
    dsimp only
    rw [hfsm]
    dsimp only
    rw [hparse]
  · intro t v n ht hfsm hrt hparse
    unfold resolve_idle_timeout
    rw [ht]
    dsimp only
    rw [hfsm]
    dsimp only
    rw [hrt]
    dsimp only
    rw [hparse]
  · intro hfsm hrt hfrd hft
    unfold resolve_idle_timeout yaml_idle_timeout_value
    rw [hft]
    dsimp only
    rw [hfsm]
    dsimp only
    rw [hrt]
    dsimp only
    rw [hfrd]
    rfl
  · intro v hv
    unfold resolve_log_level
    rw [hv]
  · intro yl hv hfl
    unfold resolve_log_level
    rw [hv, hfl]
    cases yl <;> rfl

/-- Witness for C5: one concrete application per field, exercising the
env-wins, legacy, and default branches. -/
theorem c5_scalar_field_precedence_witness :
    resolve_poll_interval {} [("FSM_POLL_INTERVAL", "7")] = .ok 7 ∧
    resolve_idle_app {} [("RUNNER_APP", "com.x")] = .ok (some "com.x") ∧
    resolve_idle_timeout {} [] = .ok none ∧
    resolve_log_level {} true [] = "info" :=
  ⟨(c5_scalar_field_precedence {} [("FSM_POLL_INTERVAL", "7")]).2.2.2.1 5 "7" 7
      (by decide) (by decide) (by decide),
   (c5_scalar_field_precedence {} [("RUNNER_APP", "com.x")]).2.1 none "com.x"
      (by decide) (by decide) (by decide) (by decide),
   (c5_scalar_field_precedence {} []).2.2.2.2.2.2.2.2.1
      (by decide) (by decide) (by decide) (by decide),
   (c5_scalar_field_precedence {} []).2.2.2.2.2.2.2.2.2.2 true
      (by decide) (by decide)⟩

/-- Claim C6: device-list resolution follows the four-level precedence
structured env devices, then indexed env devices, then file devices, then
legacy RUNNER_DEVICES shorthand; and with no devices from any source,
resolution fails with the configuration error naming the absence of
configured devices (given that the earlier, unrelated resolution stages do
not fail first). -/
theorem c6_device_source_precedence (f : FileCfg) (yl : Bool) (e : Env)
    (st ix : List RawDevice) :
    (st ≠ [] → choose_raw_devices f yl e st ix = st) ∧
    (st = [] → ix ≠ [] → choose_raw_devices f yl e st ix = ix) ∧
    (∀ ds, st = [] → ix = [] → yl = true → f.devices = some ds → ds ≠ [] →
      choose_raw_devices f yl e st ix = ds) ∧
    (∀ s, st = [] → ix = [] → (if yl then f.devices.getD [] else []) = [] →
      getenv e "RUNNER_DEVICES" = some s → s ≠ "" →
      choose_raw_devices f yl e st ix = build_devices_from_runner_devices s) ∧
    (build_devices_from_env e = .ok [] → load_env_devices e = [] →
      (if yl then f.devices.getD [] else []) = [] →
      (getenv e "RUNNER_DEVICES" = none ∨
        ∃ s, getenv e "RUNNER_DEVICES" = some s ∧ build_devices_from_runner_devices s = []) →
      (∃ a, resolve_idle_app f e = .ok a) →
      (∃ p, resolve_poll_interval f e = .ok p) →
      (∃ t, resolve_idle_timeout f e = .ok t) →
      build_config f yl e =
        .error ⟨"Config error: no devices configured; set RUNNER_DEVICES or FIRESTICK_MINDER_DEVICE_<NAME>_HOST."⟩) := by
  have hch : (if yl then f.devices.getD [] else []) = [] →
      (getenv e "RUNNER_DEVICES" = none ∨
        ∃ s, getenv e "RUNNER_DEVICES" = some s ∧ build_devices_from_runner_devices s = []) →
      choose_raw_devices f yl e [] [] = [] := by
    intro hy hrd
    unfold choose_raw_devices
    simp only [List.isEmpty_nil, not_true_eq_false, if_false, hy, List.isEmpty_iff]
    rcases hrd with h | ⟨s, hs1, hs2⟩
    · simp [h]
    · simp only [hs1, hs2]
      simp [ite_self]
  refine ⟨?_, ?_, ?_, ?_, ?_⟩
  · intro h
    unfold choose_raw_devices
    simp [h]
  · intro h1 h2
    subst h1
    unfold choose_raw_devices
    simp [h2]
  · intro ds h1 h2 h3 h4 h5
    subst h1
    subst h2
    subst h3
    unfold choose_raw_devices
    simp [h4, h5]
  · intro s h1 h2 hy hrd hs
    subst h1
    subst h2
    unfold choose_raw_devices
    have hb : (s == "") = false := beq_eq_false_iff_ne.mpr hs
    simp only [List.isEmpty_nil, not_true_eq_false, if_false, hy, List.isEmpty_iff, hrd, hb]
    simp
  · intro hst hix hy hrd ⟨a, ha⟩ ⟨p, hp⟩ ⟨t, ht⟩
    unfold build_config
    rw [hst, ha, hp, ht]
    dsimp only
    rw [hix, hch hy hrd]
    rfl

/-- Witness for C6: the structured-env branch and the all-sources-absent
failure, each at a concrete instance. -/
theorem c6_device_source_precedence_witness :
    choose_raw_devices {} false [] [{ host := some "h" }] [] = [{ host := some "h" }] ∧
    build_config {} false [] =
      .error ⟨"Config error: no devices configured; set RUNNER_DEVICES or FIRESTICK_MINDER_DEVICE_<NAME>_HOST."⟩ :=
  ⟨(c6_device_source_precedence {} false [] [{ host := some "h" }] []).1 (by decide),
   (c6_device_source_precedence {} false [] [] []).2.2.2.2 (by decide) (by decide)
      (by decide) (Or.inl (by decide)) ⟨none, by decide⟩ ⟨5, by decide⟩ ⟨none, by decide⟩⟩

theorem runner_idle_timeout_fold_le_acc (l : List (String × String)) :
    ∀ i0 v0, ∃ j w, l.foldl runner_idle_timeout_step (some (i0, v0)) = some (j, w) ∧ j ≤ i0 := by
  induction l with
  | nil =>
    intro i0 v0
    exact ⟨i0, v0, rfl, le_refl i0⟩
  | cons kv rest ih =>
    intro i0 v0
    simp only [List.foldl_cons]
    cases hk : parse_runner_idle_timeout_key kv.1 with
    | none =>
      simp only [runner_idle_timeout_step, hk]
      exact ih i0 v0
    | some idx =>
      simp only [runner_idle_timeout_step, hk]
      by_cases hlt : idx < i0
      · rw [if_pos hlt]
        obtain ⟨j, w, hr, hj⟩ := ih idx kv.2
        exact ⟨j, w, hr, le_trans hj (le_of_lt hlt)⟩
      · rw [if_neg hlt]
        exact ih i0 v0

theorem runner_idle_timeout_fold_min (l : List (String × String)) :
    ∀ (acc : Option (Nat × String)) k v i, (k, v) ∈ l →
    parse_runner_idle_timeout_key k = some i →
    ∃ j w, l.foldl runner_idle_timeout_step acc = some (j, w) ∧ j ≤ i := by
  induction l with
  | nil =>
    intro acc k v i hm
    cases hm
  | cons kv rest ih =>
    intro acc k v i hm hk
    simp only [List.foldl_cons]
    rcases List.mem_cons.mp hm with heq | hm2
    · cases heq.symm
      cases acc with
      | none =>
        simp only [runner_idle_timeout_step, hk]
        exact runner_idle_timeout_fold_le_acc rest i v
      | some pair =>
        obtain ⟨i0, v0⟩ := pair
        simp only [runner_idle_timeout_step, hk]
        by_cases hlt : i < i0
        · rw [if_pos hlt]
          exact runner_idle_timeout_fold_le_acc rest i v
        · rw [if_neg hlt]
          obtain ⟨j, w, hr, hj⟩ := runner_idle_timeout_fold_le_acc rest i0 v0
          exact ⟨j, w, hr, le_trans hj (not_lt.mp hlt)⟩
    · exact ih _ k v i hm2 hk

theorem runner_idle_timeout_fold_origin (l : List (String × String)) :
    ∀ (acc : Option (Nat × String)) j w, l.foldl runner_idle_timeout_step acc = some (j, w) →
    (∃ k, (k, w) ∈ l ∧ parse_runner_idle_timeout_key k = some j) ∨ acc = some (j, w) := by
  induction l with
  | nil =>
    intro acc j w h
    right
    exact h
  | cons kv rest ih =>
    intro acc j w h
    obtain ⟨k1, v1⟩ := kv
    simp only [List.foldl_cons] at h
    rcases ih _ j w h with ⟨k, hk1, hk2⟩ | hacc
    · left
      exact ⟨k, List.mem_cons_of_mem _ hk1, hk2⟩
    · cases hp : parse_runner_idle_timeout_key k1 with
      | none =>
        simp only [runner_idle_timeout_step, hp] at hacc
        right
        exact hacc
      | some idx =>
        simp only [runner_idle_timeout_step, hp] at hacc
        cases acc with
        | none =>
          dsimp only at hacc
          injection hacc with h1
          injection h1 with ha hb
          subst ha
          subst hb
          left
          exact ⟨k1, List.mem_cons_self _ _, hp⟩
        | some pair =>
          obtain ⟨i0, v0⟩ := pair
          dsimp only at hacc
          by_cases hlt : idx < i0
          · rw [if_pos hlt] at hacc
            injection hacc with h1
            injection h1 with ha hb
            subst ha
            subst hb
            left
            exact ⟨k1, List.mem_cons_self _ _, hp⟩
          · rw [if_neg hlt] at hacc
            right
            exact hacc

/-- Claim C7: the effective idle timeout follows the cascade
FSM_IDLE_TIMEOUT, then RUNNER_IDLE_TIMEOUT, then the
RUNNER_DEVICE_n_IDLE_TIMEOUT variable at the lowest numeric index (a global
fallback that overrides any file value), then the file field, then disabled;
and the device-indexed scan indeed selects a value carried by a matching
entry whose index is least among all matching entries. -/
theorem c7_idle_timeout_env_cascade (f : FileCfg) (e : Env) :
    (∀ t0 v n, yaml_idle_timeout_value f = .ok t0 → getenv e "FSM_IDLE_TIMEOUT" = some v →
      parse_int_env (some v) "FSM_IDLE_TIMEOUT" = .ok (some n) →
      resolve_idle_timeout f e = .ok (some n)) ∧
    (∀ t0 v n, yaml_idle_timeout_value f = .ok t0 → getenv e "FSM_IDLE_TIMEOUT" = none →
      getenv e "RUNNER_IDLE_TIMEOUT" = some v →
      parse_int_env (some v) "RUNNER_IDLE_TIMEOUT" = .ok (some n) →
      resolve_idle_timeout f e = .ok (some n)) ∧
    (∀ t0 v name n, yaml_idle_timeout_value f = .ok t0 →
      getenv e "FSM_IDLE_TIMEOUT" = none → getenv e "RUNNER_IDLE_TIMEOUT" = none →
      first_runner_device_idle_timeout e = (some v, name) →
      parse_int_env (some v) name = .ok (some n) →
      resolve_idle_timeout f e = .ok (some n)) ∧
    (∀ m, getenv e "FSM_IDLE_TIMEOUT" = none → getenv e "RUNNER_IDLE_TIMEOUT" = none →
      first_runner_device_idle_timeout e = (none, "FSM_IDLE_TIMEOUT") →
      f.idle_timeout_seconds = some (some m) → ¬ m ≤ 0 →
      resolve_idle_timeout f e = .ok (some m)) ∧
    (getenv e "FSM_IDLE_TIMEOUT" = none → getenv e "RUNNER_IDLE_TIMEOUT" = none →
      first_runner_device_idle_timeout e = (none, "FSM_IDLE_TIMEOUT") →
      (f.idle_timeout_seconds = none ∨ f.idle_timeout_seconds = some none) →
      resolve_idle_timeout f e = .ok none) ∧
    (∀ k v i, (k, v) ∈ e → parse_runner_idle_timeout_key k = some i →
      ∃ j w, j ≤ i ∧ (∃ k2, (k2, w) ∈ e ∧ parse_runner_idle_timeout_key k2 = some j) ∧
        first_runner_device_idle_timeout e =
          (some w, "RUNNER_DEVICE_" ++ toString j ++ "_IDLE_TIMEOUT")) := by
  refine ⟨?_, ?_, ?_, ?_, ?_, ?_⟩
  · intro t0 v n ht hfsm hparse
    unfold resolve_idle_timeout
    rw [ht]
    dsimp only
    rw [hfsm]
    dsimp only
    rw [hparse]
  · intro t0 v n ht hfsm hrt hparse
    unfold resolve_idle_timeout
    rw [ht]
    dsimp only
    rw [hfsm]
    dsimp only
    rw [hrt]
    dsimp only
    rw [hparse]
  · intro t0 v name n ht hfsm hrt hfrd hparse
    unfold resolve_idle_timeout
    rw [ht]
    dsimp only
    rw [hfsm]
    dsimp only
    rw [hrt]
    dsimp only
    rw [hfrd]
    dsimp only
    rw [hparse]
  · intro m hfsm hrt hfrd hft hm
    unfold resolve_idle_timeout yaml_idle_timeout_value
    rw [hft]
    dsimp only
    rw [if_neg hm]
    dsimp only
    rw [hfsm]
    dsimp only
    rw [hrt]
    dsimp only
    rw [hfrd]
    rfl
  · intro hfsm hrt hfrd hft
    unfold resolve_idle_timeout yaml_idle_timeout_value
    rcases hft with h | h
    all_goals rw [h]
    all_goals dsimp only
    all_goals rw [hfsm]
    all_goals dsimp only
    all_goals rw [hrt]
    all_goals dsimp only
    all_goals rw [hfrd]
    all_goals rfl
  · intro k v i hm hk
    obtain ⟨j, w, hfold, hj⟩ := runner_idle_timeout_fold_min e none k v i hm hk
    rcases runner_idle_timeout_fold_origin e none j w hfold with ⟨k2, hk2m, hk2p⟩ | habs
    · refine ⟨j, w, hj, ⟨k2, hk2m, hk2p⟩, ?_⟩
      unfold first_runner_device_idle_timeout
      rw [hfold]
    · cases habs

/-- Witness for C7: the device-indexed legacy variable, at index 2 versus 7,
overrides a file-supplied idle timeout. -/
theorem c7_idle_timeout_env_cascade_witness :
    resolve_idle_timeout { idle_timeout_seconds := some (some 900) }
      [("RUNNER_DEVICE_7_IDLE_TIMEOUT", "40"), ("RUNNER_DEVICE_2_IDLE_TIMEOUT", "75")]
      = .ok (some 75) :=
  (c7_idle_timeout_env_cascade { idle_timeout_seconds := some (some 900) }
      [("RUNNER_DEVICE_7_IDLE_TIMEOUT", "40"), ("RUNNER_DEVICE_2_IDLE_TIMEOUT", "75")]).2.2.1
    (some 900) "75" "RUNNER_DEVICE_2_IDLE_TIMEOUT" 75
    (by decide) (by decide) (by decide) (by decide) (by decide)

theorem parse_int_env_pos (o : Option String) (nm : String) (n : Int)
    (h : parse_int_env o nm = .ok (some n)) : 0 < n := by
  cases o with
  | none =>
    unfold parse_int_env at h
    cases h
  | some v =>
    unfold parse_int_env at h
    dsimp only at h
    cases hp : py_int_chars? v.data with
    | none =>
      rw [hp] at h
      cases h
    | some m =>
      rw [hp] at h
      dsimp only at h
      by_cases hm : m ≤ 0
      · rw [if_pos hm] at h
        cases h
      · rw [if_neg hm] at h
        injection h with h1
        injection h1 with h2
        subst h2
        exact not_le.mp hm

theorem normalize_mqtt_fields (m : MqttRaw) (n : MqttCfg)
    (h : normalize_mqtt m = .ok n) : n.host ≠ "" ∧ 0 < n.port := by
  unfold normalize_mqtt at h
  dsimp only at h
  cases mh : m.host with
  | none =>
    rw [mh] at h
    cases h
  | some hst =>
    rw [mh] at h
    dsimp only at h
    by_cases h1 : (hst == "") = true
    · rw [if_pos h1] at h
      cases h
    · rw [if_neg h1] at h
      by_cases h2 : m.port.getD 1883 ≤ 0
      · rw [if_pos h2] at h
        cases h
      · rw [if_neg h2] at h
        by_cases h3 : (m.topicPrefix.getD "home/firestick" == "") = true
        · rw [if_pos h3] at h
          cases h
        · rw [if_neg h3] at h
          injection h with h4
          subst h4
          refine ⟨?_, not_le.mp h2⟩
          simp only [beq_iff_eq] at h1
          exact h1

theorem normalize_mqtt_ok_of (h : String) (p : Int) (t : String) (u pw : Option String)
    (hh : h ≠ "") (hp : 0 < p) (ht : t ≠ "") :
    normalize_mqtt { host := some h, port := some p, topicPrefix := some t,
                     username := u, password := pw }
      = .ok { host := h, port := p, topicPrefix := rstrip_slash t,
              username := u, password := pw } := by
  unfold normalize_mqtt
  dsimp only
  have h1 : ¬ ((h == "") = true) := by simp [hh]
  rw [if_neg h1]
  simp only [Option.getD_some]
  rw [if_neg (not_le.mpr hp)]
  have h3 : ¬ ((t == "") = true) := by simp [ht]
  rw [if_neg h3]

theorem merge_env_mqtt_of_cfg (n : MqttCfg) (oh : Option String) (op : Option Int)
    (ot : Option String) :
    merge_env_mqtt { host := some n.host, port := some n.port,
                     topicPrefix := some n.topicPrefix,
                     username := n.username, password := n.password } oh op ot
      = { host := some (if env_truthy oh then oh.getD n.host else n.host),
          port := some (op.getD n.port),
          topicPrefix := some (if env_truthy ot then ot.getD n.topicPrefix
            else n.topicPrefix),
          username := n.username, password := n.password } := by
  unfold merge_env_mqtt
  cases oh <;> cases op <;> cases ot <;>
    simp only [env_truthy, Option.getD_some, Option.getD_none] <;>
    split_ifs <;>
    simp_all [env_truthy]

theorem env_truthy_getD_ne (o : Option String) (d : String)
    (h : env_truthy o = true) : o.getD d ≠ "" := by
  cases o with
  | none => simp [env_truthy] at h
  | some s =>
    simp only [env_truthy, decide_eq_true_eq] at h
    simpa using h

/-- Claim C9, counterexample to the claim as stated: with a valid device
configured, no broker host supplied by any source, and only
FSM_MQTT_ENABLED=true set, resolution raises the mqtt.host ConfigError
instead of succeeding with telemetry disabled. -/
theorem c9_counterexample :
    build_config {} false
      [("FIRESTICK_MINDER_DEVICE_LR_HOST", "h"),
       ("FIRESTICK_MINDER_DEVICE_LR_APP", "a"),
       ("FSM_MQTT_ENABLED", "true")] =
    .error ⟨"mqtt.host must be a non-empty string"⟩ := by decide

/-- Claim C9 (amended): the telemetry section is the file mqtt section
overridden field-by-field (host, port, topic prefix) by the FSM_MQTT_*
environment variables — each env field that carries a usable value replaces
the file's value for that field alone, while an absent or empty env field
keeps the file's value; FSM_MQTT_ENABLED=false forces telemetry off for any
file whose mqtt section (if present) itself validates; and when no mqtt
configuration is supplied by any source, resolution succeeds with telemetry
disabled. A partial mqtt configuration that never supplies a broker host
(for example FSM_MQTT_ENABLED=true alone) is a ConfigError, not a silent
disable. -/
theorem c9_mqtt_resolution (f : FileCfg) (yl : Bool) (e : Env) :
    (∀ m n en op,
      (if yl then f.mqtt else none) = some m → normalize_mqtt m = .ok n →
      parse_bool_env (getenv e "FSM_MQTT_ENABLED") = .ok en → en ≠ some false →
      parse_int_env (getenv e "FSM_MQTT_PORT") "FSM_MQTT_PORT" = .ok op →
      (en = some true ∨ env_truthy (getenv e "FSM_MQTT_HOST") = true ∨ op ≠ none ∨
        env_truthy (getenv e "FSM_MQTT_TOPIC_PREFIX") = true) →
      (env_truthy (getenv e "FSM_MQTT_TOPIC_PREFIX") = true ∨ n.topicPrefix ≠ "") →
      resolve_mqtt f yl e =
        .ok (some {
          host := if env_truthy (getenv e "FSM_MQTT_HOST") then
              (getenv e "FSM_MQTT_HOST").getD n.host else n.host,
          port := op.getD n.port,
          topicPrefix := rstrip_slash
            (if env_truthy (getenv e "FSM_MQTT_TOPIC_PREFIX") then
              (getenv e "FSM_MQTT_TOPIC_PREFIX").getD n.topicPrefix else n.topicPrefix),
          username := n.username, password := n.password })) ∧
    (parse_bool_env (getenv e "FSM_MQTT_ENABLED") = .ok (some false) →
      ((if yl then f.mqtt else none) = none ∨
        ∃ m n, (if yl then f.mqtt else none) = some m ∧ normalize_mqtt m = .ok n) →
      (∃ op, parse_int_env (getenv e "FSM_MQTT_PORT") "FSM_MQTT_PORT" = .ok op) →
      resolve_mqtt f yl e = .ok none) ∧
    ((if yl then f.mqtt else none) = none →
      getenv e "FSM_MQTT_ENABLED" = none → getenv e "FSM_MQTT_HOST" = none →
      getenv e "FSM_MQTT_PORT" = none → getenv e "FSM_MQTT_TOPIC_PREFIX" = none →
      resolve_mqtt f yl e = .ok none) := by
  refine ⟨?_, ?_, ?_⟩
  · intro m n en op hym hn hen henne hport htrig htp
    obtain ⟨hhost_ne, hport_pos⟩ := normalize_mqtt_fields m n hn
    unfold resolve_mqtt
    rw [hym]
    dsimp only
    rw [hn]
    dsimp only
    rw [hen]
    dsimp only
    rw [hport]
    dsimp only
    have hc1 : ¬ ((en == some false) = true) := by
      simp only [beq_iff_eq]
      exact henne
    rw [if_neg hc1]
    have hc2 : (en == some true || env_truthy (getenv e "FSM_MQTT_HOST") ||
        op.isSome || env_truthy (getenv e "FSM_MQTT_TOPIC_PREFIX")) = true := by
      rcases htrig with h | h | h | h
      · subst h
        simp
      · simp [h]
      · cases op with
        | none => exact absurd rfl h
        | some p => simp
      · simp [h]
    rw [if_pos hc2]
    rw [merge_env_mqtt_of_cfg]
    have hH : (if env_truthy (getenv e "FSM_MQTT_HOST") then
        (getenv e "FSM_MQTT_HOST").getD n.host else n.host) ≠ "" := by
      by_cases hcase : env_truthy (getenv e "FSM_MQTT_HOST") = true
      · rw [if_pos hcase]
        exact env_truthy_getD_ne _ _ hcase
      · rw [if_neg hcase]
        exact hhost_ne
    have hP : 0 < op.getD n.port := by
      cases op with
      | none =>
        simp only [Option.getD_none]
        exact hport_pos
      | some p =>
        simp only [Option.getD_some]
        exact parse_int_env_pos _ _ _ hport
    have hT : (if env_truthy (getenv e "FSM_MQTT_TOPIC_PREFIX") then
        (getenv e "FSM_MQTT_TOPIC_PREFIX").getD n.topicPrefix else n.topicPrefix) ≠ "" := by
      by_cases hcase : env_truthy (getenv e "FSM_MQTT_TOPIC_PREFIX") = true
      · rw [if_pos hcase]
        exact env_truthy_getD_ne _ _ hcase
      · rw [if_neg hcase]
        rcases htp with h | h
        · exact absurd h hcase
        · exact h
    rw [normalize_mqtt_ok_of _ _ _ n.username n.password hH hP hT]
  · intro hen hfile hport
    obtain ⟨op, hop⟩ := hport
    unfold resolve_mqtt
    rcases hfile with h | ⟨m, n, hm, hn⟩
    · rw [h]
      dsimp only
      rw [hen]
      dsimp only
      rw [hop]
      rfl
    · rw [hm]
      dsimp only
      rw [hn]
      dsimp only
      rw [hen]
      dsimp only
      rw [hop]
      rfl
  · intro hfile hen hhost hport htp
    unfold resolve_mqtt
    rw [hfile, hen, hhost, hport, htp]
    rfl

/-- Witness for C9 (amended): a partial, field-by-field override — only
FSM_MQTT_HOST is set, and the file's port 1900 and topic prefix survive —
plus the explicit disable and the no-source default, at concrete
instances. -/
theorem c9_mqtt_resolution_witness :
    resolve_mqtt { mqtt := some { host := some "fh", port := some 1900,
                                  topicPrefix := some "tp" } } true
      [("FSM_MQTT_HOST", "eh")] =
      .ok (some { host := "eh", port := 1900, topicPrefix := "tp",
                  username := none, password := none }) ∧
    resolve_mqtt { mqtt := some { host := some "fh" } } true
      [("FSM_MQTT_ENABLED", "false")] = .ok none ∧
    resolve_mqtt {} false [] = .ok none := by
  refine ⟨?_, ?_, ?_⟩
  · have h := (c9_mqtt_resolution
      { mqtt := some { host := some "fh", port := some 1900, topicPrefix := some "tp" } } true
      [("FSM_MQTT_HOST", "eh")]).1
      { host := some "fh", port := some 1900, topicPrefix := some "tp" }
      { host := "fh", port := 1900, topicPrefix := "tp", username := none, password := none }
      none none
      (by decide) (by decide) (by decide) (by decide) (by decide)
      (Or.inr (Or.inl (by decide))) (Or.inr (by decide))
    exact h
  · exact (c9_mqtt_resolution { mqtt := some { host := some "fh" } } true
      [("FSM_MQTT_ENABLED", "false")]).2.1 (by decide)
      (Or.inr ⟨{ host := some "fh" },
        { host := "fh", port := 1883, topicPrefix := "home/firestick",
          username := none, password := none }, by decide, by decide⟩)
      ⟨none, by decide⟩
  · exact (c9_mqtt_resolution {} false []).2.2 (by decide) (by decide) (by decide)
      (by decide) (by decide)
